import Mathlib

/-!
Verification of the analytics pipeline of `production_tracker.py`.

The embedding covers the `app` function's analytics section: label-encoder
fitting over the activity log (lines 156-162), feature-matrix construction
(line 164), model training (lines 168-173), the duration-prediction button
(lines 180-187), the anomaly button (lines 189-199), and the duration
computation on submit (lines 131-134).  The sklearn model internals are not
part of this repository; they are modelled abstractly from the spec's
contracts, with the properties the spec relies on stated explicitly.
-/

/-- One row of the `ActivityLogs` table, restricted to the fields the
analytics pass reads.  `part_description` is nullable in the schema, so it
is an `Option`; durations are modelled as rationals. -/
structure ActivityRecord where
  line_id : String
  activity_type : String
  part_description : Option String
  duration_minutes : ℚ
deriving DecidableEq, Repr

/-- Insert a string into a list, keeping ascending order. -/
def insortStr (x : String) : List String → List String
  | [] => [x]
  | y :: ys => if x ≤ y then x :: y :: ys else y :: insortStr x ys

/-- Insertion sort on strings. -/
def sortStr (l : List String) : List String := l.foldr insortStr []

/-- Classes learned by `LabelEncoder.fit`: the sorted distinct values of the
column (sklearn computes them with `np.unique`). -/
def classesOf (vals : List String) : List String := sortStr vals.dedup

/-- Fallible `LabelEncoder.transform` of a single value: its index in the
fitted class list, or `none` where sklearn raises `ValueError` because the
value is out of vocabulary. -/
def codeOf? (classes : List String) (v : String) : Option Nat :=
  match classes with
  | [] => none
  | c :: cs => if c = v then some 0 else (codeOf? cs v).map (· + 1)

/-- Code of an in-vocabulary value (`LabelEncoder.transform` on a value known
to be fitted; the source only calls it in that situation). -/
def codeOf (classes : List String) (v : String) : Nat :=
  (codeOf? classes v).getD 0

/-- The three fitted encoders of lines 156-158: `le_line`, `le_activity`,
`le_part`, each holding its fitted class list. -/
structure EncoderState where
  le_line : List String
  le_activity : List String
  le_part : List String
deriving DecidableEq, Repr

/-- Encoder fitting of lines 160-162: each encoder is fit on its column of
the current logs; a missing part description is filled with the sentinel
"Unknown" (`fillna("Unknown")`) before fitting. -/
def fitEncoders (logs : List ActivityRecord) : EncoderState where
  le_line := classesOf (logs.map (·.line_id))
  le_activity := classesOf (logs.map (·.activity_type))
  le_part := classesOf (logs.map (fun r => r.part_description.getD "Unknown"))

/-- Feature row of a historical record (the `fit_transform` codes of
lines 160-164): `(line_enc, activity_enc, part_enc)`, with the "Unknown"
sentinel substituted for a missing part description. -/
def encodeRow (e : EncoderState) (r : ActivityRecord) : Nat × Nat × Nat :=
  (codeOf e.le_line r.line_id,
   codeOf e.le_activity r.activity_type,
   codeOf e.le_part (r.part_description.getD "Unknown"))

/-- Feature vector of a query (lines 182-184 and 191-193): `transform` on the
line and on the activity type raises when the value is out of vocabulary
(modelled as `none`, which the buttons' `except` branches turn into an error
message); the part description falls back to code 0 when it is not among the
fitted classes. -/
def encodeQuery (e : EncoderState) (line act part : String) :
    Option (Nat × Nat × Nat) := do
  let lc ← codeOf? e.le_line line
  let ac ← codeOf? e.le_activity act
  pure (lc, ac, if part ∈ e.le_part then codeOf e.le_part part else 0)

/-- A fitted anomaly scorer: `IsolationForest(contamination=0.1).fit(X)`
keeps the contamination parameter and yields an integer-valued prediction
function (sklearn returns -1 for outliers).  The prediction function itself
is abstract. -/
structure AnomalyScorer where
  contamination : ℚ
  predict : Nat × Nat × Nat → Int

/-- The `Fitted` state of the analytics session: the fitted encoders together
with the trained duration model and anomaly model. -/
structure Session where
  encoders : EncoderState
  model : Nat × Nat × Nat → ℚ
  anomaly_model : AnomalyScorer

/-- Modelled from the spec: `RandomForestRegressor` training lives in sklearn,
outside this repository, so a regressor fitter is any function from the
feature matrix and duration vector to a prediction function.  The property
the spec relies on is `RandomForestLike` below. -/
def RegressorFitter : Type :=
  List (Nat × Nat × Nat) → List ℚ → (Nat × Nat × Nat → ℚ)

/-- Modelled from the spec: `IsolationForest` training lives in sklearn.  An
anomaly fitter consumes only the feature matrix — no label input. -/
def AnomalyFitter : Type :=
  List (Nat × Nat × Nat) → (Nat × Nat × Nat → Int)

/-- Predictions of `f` stay between every lower bound and every upper bound of
the training durations `y`. -/
def PredBounded (y : List ℚ) (f : Nat × Nat × Nat → ℚ) : Prop :=
  ∀ v : Nat × Nat × Nat,
    (∀ a : ℚ, (∀ d ∈ y, a ≤ d) → a ≤ f v) ∧
    (∀ b : ℚ, (∀ d ∈ y, d ≤ b) → f v ≤ b)

/-- Modelled from the spec: every prediction of a fitted random forest is an
average of training targets, hence bounded by them; a fitter behaves like
`RandomForestRegressor` when, on every non-empty training set, its
predictions satisfy `PredBounded`. -/
def RandomForestLike (fitReg : RegressorFitter) : Prop :=
  ∀ X y, y ≠ [] → PredBounded y (fitReg X y)

/-- The analytics pass of lines 154-173: guarded by `if not logs.empty:` —
nothing at all is fitted when the log table is empty; otherwise the encoders
are fit, the feature matrix `X` and duration vector `y` are built, and both
models are trained (the anomaly model with `contamination=0.1` and no
labels). -/
def analyze (fitReg : RegressorFitter) (fitAnom : AnomalyFitter)
    (logs : List ActivityRecord) : Option Session :=
  if logs.isEmpty then none
  else
    let e := fitEncoders logs
    let X := logs.map (encodeRow e)
    let y := logs.map (·.duration_minutes)
    some { encoders := e
           model := fitReg X y
           anomaly_model := { contamination := 1 / 10, predict := fitAnom X } }

/-- Outcome of the "Predict Setup Time" button (lines 180-187): the predicted
minutes, or the error branch ("Please enter a valid part description seen in
logs.") reached when encoding raised. -/
inductive PredictOutcome
  | ok (minutes : ℚ)
  | invalidInput
deriving DecidableEq, Repr

/-- The "Predict Setup Time" button (lines 180-187): build the query feature
vector and predict; any exception from `transform` lands in the error
branch. -/
def predictDuration (s : Session) (line act part : String) : PredictOutcome :=
  match encodeQuery s.encoders line act part with
  | some v => .ok (s.model v)
  | none => .invalidInput

/-- Outcome of the "Check Anomaly" button (lines 189-199): abnormal when the
anomaly model outputs -1, normal on any other output, or the error branch
("Unable to check anomaly for this input.") when encoding raised. -/
inductive AnomalyOutcome
  | abnormal
  | normal
  | invalidInput
deriving DecidableEq, Repr

/-- The "Check Anomaly" button (lines 189-199). -/
def checkAnomaly (s : Session) (line act part : String) : AnomalyOutcome :=
  match encodeQuery s.encoders line act part with
  | some v => if s.anomaly_model.predict v = -1 then .abnormal else .normal
  | none => .invalidInput

/-- Analytics session state: `empty` when the corpus was empty and the whole
AI-insights block (models and query UI) was skipped, `fitted` otherwise. -/
inductive SessionState
  | empty
  | fitted (s : Session)

/-- Session state produced by a render cycle over the given logs. -/
def analyzeState (fitReg : RegressorFitter) (fitAnom : AnomalyFitter)
    (logs : List ActivityRecord) : SessionState :=
  match analyze fitReg fitAnom logs with
  | some s => .fitted s
  | none => .empty

/-- Result of asking a query of a session state: in the `empty` state the
query UI does not exist, so the operation is unavailable and the caller gets
no model answer — insufficient data. -/
inductive Queried (α : Type)
  | insufficientData
  | answered (a : α)
deriving DecidableEq, Repr

/-- Session-level duration prediction: unavailable before fitting. -/
def sessionPredict (st : SessionState) (line act part : String) :
    Queried PredictOutcome :=
  match st with
  | .empty => .insufficientData
  | .fitted s => .answered (predictDuration s line act part)

/-- Session-level anomaly check: unavailable before fitting. -/
def sessionAnomaly (st : SessionState) (line act part : String) :
    Queried AnomalyOutcome :=
  match st with
  | .empty => .insufficientData
  | .fitted s => .answered (checkAnomaly s line act part)

/-- The predict button with the session threaded through: the code only reads
the fitted models, so the session comes back unchanged. -/
def predictDurationS (s : Session) (line act part : String) :
    PredictOutcome × Session :=
  (predictDuration s line act part, s)

/-- Duration stored on submit (lines 131-134): Python computes
`(end_time - start_time).seconds / 60` on two same-day datetimes, and
`timedelta` normalisation makes `.seconds` equal to the signed difference in
seconds taken modulo 86400.  Times are minutes past midnight of an HH:MM
input. -/
def durationMinutes (startMin endMin : Nat) : ℚ :=
  ((((endMin : Int) * 60 - (startMin : Int) * 60) % 86400 : Int) : ℚ) / 60

/-- The `line_id` choices offered by both selectboxes: the Lines table is
seeded with R1..R22 (lines 85-88). -/
def lineChoices : List String :=
  ["R1", "R2", "R3", "R4", "R5", "R6", "R7", "R8", "R9", "R10", "R11",
   "R12", "R13", "R14", "R15", "R16", "R17", "R18", "R19", "R20", "R21", "R22"]

/-- The activity-type choices offered by both selectboxes (lines 116, 177). -/
def activityChoices : List String :=
  ["Setup", "Calibration", "Cleaning", "Trial Run", "Downtime"]

/-- Degenerate concrete regressor fitter used in witnesses: predicts the
first training duration everywhere. -/
def fitRegHead : RegressorFitter := fun _ y => fun _ => y.headD 0

/-- Concrete anomaly fitter used in witnesses: scores everything as normal. -/
def fitAnomConst : AnomalyFitter := fun _ => fun _ => 1

/-- One-record corpus of the spec's end-to-end scenario 1. -/
def corpus1 : List ActivityRecord :=
  [{ line_id := "R1", activity_type := "Setup",
     part_description := some "GearA", duration_minutes := 45 }]

/-- The session obtained by analysing `corpus1` with the concrete fitters. -/
def sess1 : Session :=
  { encoders := fitEncoders corpus1
    model := fitRegHead (corpus1.map (encodeRow (fitEncoders corpus1)))
      (corpus1.map (·.duration_minutes))
    anomaly_model :=
      { contamination := 1 / 10
        predict := fitAnomConst (corpus1.map (encodeRow (fitEncoders corpus1))) } }

/-- A record without a part description, for concrete instantiations. -/
def recNone : ActivityRecord :=
  { line_id := "R1", activity_type := "Setup",
    part_description := none, duration_minutes := 45 }

/-- One-record corpus whose record lacks a part description. -/
def corpusNone : List ActivityRecord := [recNone]

/-- Membership through sorted insertion. -/
theorem mem_insortStr (x y : String) (l : List String) :
    x ∈ insortStr y l ↔ x = y ∨ x ∈ l := by
  induction l with
  | nil => simp [insortStr]
  | cons z zs ih =>
      by_cases h : y ≤ z
      · simp [insortStr, h]
      · simp [insortStr, h, ih]
        tauto

/-- Sorting preserves membership. -/
theorem mem_sortStr (x : String) (l : List String) :
    x ∈ sortStr l ↔ x ∈ l := by
  induction l with
  | nil => simp [sortStr]
  | cons y ys ih =>
      simp only [sortStr, List.foldr] at ih ⊢
      rw [mem_insortStr, ih, List.mem_cons]

/-- The fitted classes are exactly the observed values. -/
theorem mem_classesOf (x : String) (vals : List String) :
    x ∈ classesOf vals ↔ x ∈ vals := by
  rw [classesOf, mem_sortStr, List.mem_dedup]

/-- An in-vocabulary value always has a code. -/
theorem codeOf?_isSome_of_mem {v : String} {classes : List String}
    (h : v ∈ classes) : ∃ i, codeOf? classes v = some i := by
  induction classes with
  | nil => cases h
  | cons c cs ih =>
      by_cases hc : c = v
      · exact ⟨0, by simp [codeOf?, hc]⟩
      · rcases List.mem_cons.1 h with h' | h'
        · exact absurd h'.symm hc
        · rcases ih h' with ⟨i, hi⟩
          exact ⟨i + 1, by simp [codeOf?, hc, hi]⟩

/-- Characterisation of a successful analytics pass: the corpus is non-empty
and the session is exactly the one built from it. -/
theorem analyze_some_iff (fitReg : RegressorFitter) (fitAnom : AnomalyFitter)
    (logs : List ActivityRecord) (s : Session) :
    analyze fitReg fitAnom logs = some s ↔
      logs ≠ [] ∧
      s = { encoders := fitEncoders logs
            model := fitReg (logs.map (encodeRow (fitEncoders logs)))
              (logs.map (·.duration_minutes))
            anomaly_model :=
              { contamination := 1 / 10
                predict := fitAnom (logs.map (encodeRow (fitEncoders logs))) } } := by
  unfold analyze
  cases logs with
  | nil => simp
  | cons r rs => simp [List.isEmpty, eq_comm]

/-- The degenerate head-predicting fitter satisfies the random-forest bound. -/
theorem fitRegHead_rfLike : RandomForestLike fitRegHead := by
  intro X y hy v
  have hmem : y.headD 0 ∈ y := by
    cases y with
    | nil => exact absurd rfl hy
    | cons d ds => simp
  exact ⟨fun a ha => ha _ hmem, fun b hb => hb _ hmem⟩

/-- When query encoding succeeds, the predict button returns the model's
value. -/
theorem predictDuration_eq (s : Session) (line act part : String)
    (v : Nat × Nat × Nat) (h : encodeQuery s.encoders line act part = some v) :
    predictDuration s line act part = .ok (s.model v) := by
  unfold predictDuration
  rw [h]

/-- When query encoding succeeds, the anomaly button returns a verdict
determined by the anomaly model's output. -/
theorem checkAnomaly_eq (s : Session) (line act part : String)
    (v : Nat × Nat × Nat) (h : encodeQuery s.encoders line act part = some v) :
    checkAnomaly s line act part =
      if s.anomaly_model.predict v = -1 then .abnormal else .normal := by
  unfold checkAnomaly
  rw [h]

/-- C1, counterexample: line "R2" belongs to the enumerated selectbox choices
and "Setup" to the activity choices, yet against the session fitted on the
one-record corpus (whose only logged line is "R1") the predict button reaches
the error branch, because `le_line.transform` raises on a line absent from
the fitted corpus. -/
theorem C1_counterexample :
    "R2" ∈ lineChoices ∧ "Setup" ∈ activityChoices ∧
    analyze fitRegHead fitAnomConst corpus1 = some sess1 ∧
    predictDuration sess1 "R2" "Setup" "GearA" = .invalidInput :=
  ⟨by decide, by decide, rfl, by decide⟩

/-- C1, amended: for every fitted session whose corpus has only non-negative
durations, and every query whose line and activity type appear in the fitted
corpus (not merely in the enumerated choices), the predict button returns a
(rational, hence finite) non-negative duration and the error branch is not
reached, whatever the part description. -/
theorem C1_predict_ok_nonneg
    (fitReg : RegressorFitter) (fitAnom : AnomalyFitter)
    (logs : List ActivityRecord) (s : Session)
    (hrf : RandomForestLike fitReg)
    (hpos : ∀ r ∈ logs, 0 ≤ r.duration_minutes)
    (hs : analyze fitReg fitAnom logs = some s)
    (line act part : String)
    (hl : line ∈ s.encoders.le_line)
    (ha : act ∈ s.encoders.le_activity) :
    ∃ q : ℚ, predictDuration s line act part = .ok q ∧ 0 ≤ q := by
  rcases (analyze_some_iff fitReg fitAnom logs s).1 hs with ⟨hne, hsEq⟩
  rcases codeOf?_isSome_of_mem hl with ⟨lc, hlc⟩
  rcases codeOf?_isSome_of_mem ha with ⟨ac, hac⟩
  have henc : encodeQuery s.encoders line act part =
      some (lc, ac,
        if part ∈ s.encoders.le_part then codeOf s.encoders.le_part part else 0) := by
    simp [encodeQuery, hlc, hac]
  refine ⟨_, predictDuration_eq s line act part _ henc, ?_⟩
  have hm : s.model = fitReg (logs.map (encodeRow (fitEncoders logs)))
      (logs.map (·.duration_minutes)) := by rw [hsEq]
  have hyne : logs.map (·.duration_minutes) ≠ [] := by
    intro h
    exact hne (List.map_eq_nil_iff.1 h)
  have hb := hrf (logs.map (encodeRow (fitEncoders logs)))
    (logs.map (·.duration_minutes)) hyne
  rw [hm]
  refine (hb _).1 0 ?_
  intro d hd
  rcases List.mem_map.1 hd with ⟨r, hr, rfl⟩
  exact hpos r hr

/-- C1, witness: the amended theorem applied to the one-record corpus with a
never-seen part description. -/
theorem C1_witness :
    ∃ q : ℚ, predictDuration sess1 "R1" "Setup" "Widget" = .ok q ∧ 0 ≤ q :=
  C1_predict_ok_nonneg fitRegHead fitAnomConst corpus1 sess1
    fitRegHead_rfLike (by decide) rfl "R1" "Setup" "Widget" (by decide) (by decide)

/-- C2: on the empty log table the analytics block is skipped — no encoder
fitting, no model training, the session stays `empty`, and both query
operations answer insufficient data instead of reaching any model; on every
non-empty log table the session becomes `fitted`. -/
theorem C2_empty_no_fit (fitReg : RegressorFitter) (fitAnom : AnomalyFitter) :
    analyze fitReg fitAnom [] = none ∧
    analyzeState fitReg fitAnom [] = .empty ∧
    (∀ line act part : String,
      sessionPredict (analyzeState fitReg fitAnom []) line act part =
        .insufficientData ∧
      sessionAnomaly (analyzeState fitReg fitAnom []) line act part =
        .insufficientData) ∧
    (∀ logs : List ActivityRecord, logs ≠ [] →
      ∃ s, analyzeState fitReg fitAnom logs = .fitted s) := by
  refine ⟨rfl, rfl, fun line act part => ⟨rfl, rfl⟩, ?_⟩
  intro logs hne
  cases hl : analyze fitReg fitAnom logs with
  | none =>
      exfalso
      unfold analyze at hl
      cases logs with
      | nil => exact hne rfl
      | cons r rs => simp [List.isEmpty] at hl
  | some s =>
      refine ⟨s, ?_⟩
      unfold analyzeState
      rw [hl]

/-- C2, witness: the theorem applied to the empty corpus and to the concrete
one-record corpus. -/
theorem C2_witness :
    analyze fitRegHead fitAnomConst [] = none ∧
    (∃ s, analyzeState fitRegHead fitAnomConst corpus1 = .fitted s) :=
  ⟨(C2_empty_no_fit fitRegHead fitAnomConst).1,
   (C2_empty_no_fit fitRegHead fitAnomConst).2.2.2 corpus1 (by decide)⟩

/-- C3, counterexample: a query whose part description "Widget" is out of
vocabulary does not always succeed — with line "R2" unseen in the fitted
corpus the predict button reaches the error branch. -/
theorem C3_counterexample :
    analyze fitRegHead fitAnomConst corpus1 = some sess1 ∧
    "Widget" ∉ sess1.encoders.le_part ∧
    predictDuration sess1 "R2" "Setup" "Widget" = .invalidInput :=
  ⟨rfl, by decide, by decide⟩

/-- C3, amended: for every fitted session and every query whose line and
activity type appear in the fitted corpus, an out-of-vocabulary part
description is mapped to the fallback code 0 and the predict button still
returns a prediction, with no out-of-vocabulary error surfaced. -/
theorem C3_oov_part_fallback
    (fitReg : RegressorFitter) (fitAnom : AnomalyFitter)
    (logs : List ActivityRecord) (s : Session)
    (hs : analyze fitReg fitAnom logs = some s)
    (line act part : String)
    (hl : line ∈ s.encoders.le_line)
    (ha : act ∈ s.encoders.le_activity)
    (hp : part ∉ s.encoders.le_part) :
    ∃ lc ac : Nat,
      encodeQuery s.encoders line act part = some (lc, ac, 0) ∧
      predictDuration s line act part = .ok (s.model (lc, ac, 0)) := by
  rcases codeOf?_isSome_of_mem hl with ⟨lc, hlc⟩
  rcases codeOf?_isSome_of_mem ha with ⟨ac, hac⟩
  have henc : encodeQuery s.encoders line act part = some (lc, ac, 0) := by
    simp [encodeQuery, hlc, hac, hp]
  exact ⟨lc, ac, henc, predictDuration_eq s line act part _ henc⟩

/-- C3, witness: the amended theorem on the one-record corpus with the unseen
part description "Widget". -/
theorem C3_witness :
    ∃ lc ac : Nat,
      encodeQuery sess1.encoders "R1" "Setup" "Widget" = some (lc, ac, 0) ∧
      predictDuration sess1 "R1" "Setup" "Widget" = .ok (sess1.model (lc, ac, 0)) :=
  C3_oov_part_fallback fitRegHead fitAnomConst corpus1 sess1 rfl
    "R1" "Setup" "Widget" (by decide) (by decide) (by decide)

/-- C4: with the singleton corpus {line "R1", activity "Setup", part "GearA",
duration 45}, the fitted session's prediction for ("R1", "Setup", "GearA") is
exactly 45: a single training point pins every random-forest prediction to
the training value. -/
theorem C4_single_record_predicts_45
    (fitReg : RegressorFitter) (fitAnom : AnomalyFitter) (s : Session)
    (hrf : RandomForestLike fitReg)
    (hs : analyze fitReg fitAnom corpus1 = some s) :
    predictDuration s "R1" "Setup" "GearA" = .ok 45 := by
  rcases (analyze_some_iff fitReg fitAnom corpus1 s).1 hs with ⟨-, hsEq⟩
  have he : s.encoders = fitEncoders corpus1 := by rw [hsEq]
  have hm : s.model = fitReg (corpus1.map (encodeRow (fitEncoders corpus1)))
      (corpus1.map (·.duration_minutes)) := by rw [hsEq]
  have henc : encodeQuery s.encoders "R1" "Setup" "GearA" = some (0, 0, 0) := by
    rw [he]
    decide
  rw [predictDuration_eq s "R1" "Setup" "GearA" (0, 0, 0) henc, hm]
  have hb := hrf (corpus1.map (encodeRow (fitEncoders corpus1)))
    (corpus1.map (·.duration_minutes)) (by decide) (0, 0, 0)
  have hlo := hb.1 45 (by decide)
  have hhi := hb.2 45 (by decide)
  rw [le_antisymm hhi hlo]

/-- C4, witness: the theorem applied to the concrete head-predicting
fitter. -/
theorem C4_witness : predictDuration sess1 "R1" "Setup" "GearA" = .ok 45 :=
  C4_single_record_predicts_45 fitRegHead fitAnomConst sess1 fitRegHead_rfLike rfl

/-- C5: encoder fitting is corpus-deterministic — any two analytics passes
over equal corpora (whatever models they train) carry identical
string-to-code assignments, namely exactly the ones recomputed by
`fitEncoders` from the corpus. -/
theorem C5_encoder_deterministic
    (fitReg1 fitReg2 : RegressorFitter) (fitAnom1 fitAnom2 : AnomalyFitter)
    (logs1 logs2 : List ActivityRecord) (s1 s2 : Session)
    (h : logs1 = logs2)
    (h1 : analyze fitReg1 fitAnom1 logs1 = some s1)
    (h2 : analyze fitReg2 fitAnom2 logs2 = some s2) :
    s1.encoders = s2.encoders ∧ s1.encoders = fitEncoders logs1 := by
  rcases (analyze_some_iff fitReg1 fitAnom1 logs1 s1).1 h1 with ⟨-, hs1⟩
  rcases (analyze_some_iff fitReg2 fitAnom2 logs2 s2).1 h2 with ⟨-, hs2⟩
  subst h
  rw [hs1, hs2]
  exact ⟨rfl, rfl⟩

/-- C5, witness: two passes over the one-record corpus agree. -/
theorem C5_witness :
    sess1.encoders = sess1.encoders ∧ sess1.encoders = fitEncoders corpus1 :=
  C5_encoder_deterministic fitRegHead fitRegHead fitAnomConst fitAnomConst
    corpus1 corpus1 sess1 sess1 rfl rfl rfl

/-- C6: the predict button is idempotent within a fitted session — it leaves
the session unchanged, and a second call on the state returned by the first,
with identical arguments, returns the same value. -/
theorem C6_predict_idempotent (s : Session) (line act part : String) :
    (predictDurationS s line act part).2 = s ∧
    (predictDurationS ((predictDurationS s line act part).2) line act part).1 =
      (predictDurationS s line act part).1 :=
  ⟨rfl, rfl⟩

/-- C7, counterexample: line "R2" is among the enumerated choices and "Setup"
among the activity choices, yet against the session fitted on the one-record
corpus the anomaly button lands in the error branch, which is neither of the
two verdicts. -/
theorem C7_counterexample :
    "R2" ∈ lineChoices ∧ "Setup" ∈ activityChoices ∧
    analyze fitRegHead fitAnomConst corpus1 = some sess1 ∧
    checkAnomaly sess1 "R2" "Setup" "GearA" = .invalidInput ∧
    AnomalyOutcome.invalidInput ≠ .abnormal ∧
    AnomalyOutcome.invalidInput ≠ .normal :=
  ⟨by decide, by decide, rfl, by decide, by decide, by decide⟩

/-- C7, amended: for every fitted session and every query whose line and
activity type appear in the fitted corpus, the anomaly button returns exactly
one of the two verdicts — abnormal precisely when the scorer outputs -1 —
whether or not the part description is in vocabulary; and the scorer of every
fitted session carries the expected-outlier fraction 1/10 and was fitted with
no label input. -/
theorem C7_anomaly_two_verdicts
    (fitReg : RegressorFitter) (fitAnom : AnomalyFitter)
    (logs : List ActivityRecord) (s : Session)
    (hs : analyze fitReg fitAnom logs = some s)
    (line act part : String)
    (hl : line ∈ s.encoders.le_line)
    (ha : act ∈ s.encoders.le_activity) :
    (checkAnomaly s line act part = .abnormal ∨
     checkAnomaly s line act part = .normal) ∧
    s.anomaly_model.contamination = 1 / 10 := by
  rcases (analyze_some_iff fitReg fitAnom logs s).1 hs with ⟨-, hsEq⟩
  rcases codeOf?_isSome_of_mem hl with ⟨lc, hlc⟩
  rcases codeOf?_isSome_of_mem ha with ⟨ac, hac⟩
  have henc : encodeQuery s.encoders line act part =
      some (lc, ac,
        if part ∈ s.encoders.le_part then codeOf s.encoders.le_part part else 0) := by
    simp [encodeQuery, hlc, hac]
  constructor
  · rw [checkAnomaly_eq s line act part _ henc]
    by_cases hpred : s.anomaly_model.predict
        (lc, ac,
          if part ∈ s.encoders.le_part then codeOf s.encoders.le_part part else 0) = -1
    · exact Or.inl (by rw [if_pos hpred])
    · exact Or.inr (by rw [if_neg hpred])
  · rw [hsEq]

/-- C7, witness: the amended theorem on the one-record corpus, once with the
in-vocabulary part and once with an unseen part. -/
theorem C7_witness :
    ((checkAnomaly sess1 "R1" "Setup" "Widget" = .abnormal ∨
      checkAnomaly sess1 "R1" "Setup" "Widget" = .normal) ∧
     sess1.anomaly_model.contamination = 1 / 10) ∧
    ((checkAnomaly sess1 "R1" "Setup" "GearA" = .abnormal ∨
      checkAnomaly sess1 "R1" "Setup" "GearA" = .normal) ∧
     sess1.anomaly_model.contamination = 1 / 10) :=
  ⟨C7_anomaly_two_verdicts fitRegHead fitAnomConst corpus1 sess1 rfl
     "R1" "Setup" "Widget" (by decide) (by decide),
   C7_anomaly_two_verdicts fitRegHead fitAnomConst corpus1 sess1 rfl
     "R1" "Setup" "GearA" (by decide) (by decide)⟩

/-- C8: feature building over the history substitutes the sentinel "Unknown"
for an absent part description before encoding — and the sentinel is then in
the fitted vocabulary, so the feature row has no missing component — while a
record with a present part description has that very string encoded. -/
theorem C8_unknown_sentinel (logs : List ActivityRecord) (r : ActivityRecord)
    (hr : r ∈ logs) :
    (r.part_description = none →
      encodeRow (fitEncoders logs) r =
        (codeOf (fitEncoders logs).le_line r.line_id,
         codeOf (fitEncoders logs).le_activity r.activity_type,
         codeOf (fitEncoders logs).le_part "Unknown") ∧
      "Unknown" ∈ (fitEncoders logs).le_part) ∧
    (∀ p, r.part_description = some p →
      (encodeRow (fitEncoders logs) r).2.2 = codeOf (fitEncoders logs).le_part p ∧
      p ∈ (fitEncoders logs).le_part) := by
  constructor
  · intro hn
    constructor
    · simp [encodeRow, hn]
    · rw [show (fitEncoders logs).le_part
            = classesOf (logs.map (fun x => x.part_description.getD "Unknown"))
          from rfl,
        mem_classesOf]
      exact List.mem_map.2 ⟨r, hr, by simp [hn]⟩
  · intro p hp
    constructor
    · simp [encodeRow, hp]
    · rw [show (fitEncoders logs).le_part
            = classesOf (logs.map (fun x => x.part_description.getD "Unknown"))
          from rfl,
        mem_classesOf]
      exact List.mem_map.2 ⟨r, hr, by simp [hp]⟩

/-- C8, witness: on a one-record corpus whose record has no part description,
the feature row encodes the sentinel and the sentinel is in vocabulary. -/
theorem C8_witness :
    encodeRow (fitEncoders corpusNone) recNone =
      (codeOf (fitEncoders corpusNone).le_line recNone.line_id,
       codeOf (fitEncoders corpusNone).le_activity recNone.activity_type,
       codeOf (fitEncoders corpusNone).le_part "Unknown") ∧
    "Unknown" ∈ (fitEncoders corpusNone).le_part :=
  (C8_unknown_sentinel corpusNone recNone (by decide)).1 rfl

/-- C9, counterexample: with a valid start time 09:00 (minute 540) and a valid
end time 08:00 (minute 480), the stored duration is 1380 minutes, whereas
end minus start is -60: the stored value is not `end - start` and the
derivation wraps instead of going negative. -/
theorem C9_counterexample :
    durationMinutes 540 480 = 1380 ∧
    (480 : ℚ) - 540 < 0 ∧
    durationMinutes 540 480 ≠ (480 : ℚ) - 540 := by
  refine ⟨by norm_num [durationMinutes], by norm_num, by norm_num [durationMinutes]⟩

/-- C9, amended: for every pair of valid HH:MM times the stored duration is
non-negative, but it equals `(end - start) mod 1440` minutes — the
`timedelta.seconds` wrap-around — which coincides with `end - start` exactly
when the end time is not earlier than the start time. -/
theorem C9_duration_mod (startMin endMin : Nat)
    (hs : startMin < 1440) (he : endMin < 1440) :
    0 ≤ durationMinutes startMin endMin ∧
    durationMinutes startMin endMin
      = ((((endMin : Int) - startMin) % 1440 : Int) : ℚ) ∧
    (startMin ≤ endMin →
      durationMinutes startMin endMin = (endMin : ℚ) - startMin) := by
  have h2 : durationMinutes startMin endMin
      = ((((endMin : Int) - startMin) % 1440 : Int) : ℚ) := by
    unfold durationMinutes
    rw [show ((endMin : Int) * 60 - (startMin : Int) * 60)
          = 60 * ((endMin : Int) - (startMin : Int)) by ring,
        show (86400 : Int) = 60 * 1440 by norm_num,
        Int.mul_emod_mul_of_pos _ _ (by norm_num : (0 : Int) < 60)]
    push_cast
    field_simp
  refine ⟨?_, h2, ?_⟩
  · rw [h2]
    exact_mod_cast Int.emod_nonneg _ (by norm_num)
  · intro hle
    rw [h2, Int.emod_eq_of_lt (by omega) (by omega)]
    push_cast
    ring

/-- C9, witness: start 08:00, end 09:00 gives the non-negative duration
60 = 540 - 480. -/
theorem C9_witness :
    0 ≤ durationMinutes 480 540 ∧ durationMinutes 480 540 = (540 : ℚ) - 480 :=
  ⟨(C9_duration_mod 480 540 (by norm_num) (by norm_num)).1,
   (C9_duration_mod 480 540 (by norm_num) (by norm_num)).2.2 (by norm_num)⟩

/-- C10: the fallback conflates unknown with the first known category — for a
fitted session and a query whose line and activity type are in vocabulary, an
out-of-vocabulary part description yields the very same feature vector as the
in-vocabulary part description whose assigned code is 0, hence the same
prediction and the same anomaly verdict. -/
theorem C10_oov_conflates_code0
    (fitReg : RegressorFitter) (fitAnom : AnomalyFitter)
    (logs : List ActivityRecord) (s : Session)
    (hs : analyze fitReg fitAnom logs = some s)
    (line act part p0 : String)
    (hl : line ∈ s.encoders.le_line)
    (ha : act ∈ s.encoders.le_activity)
    (hp : part ∉ s.encoders.le_part)
    (hp0 : p0 ∈ s.encoders.le_part)
    (hc0 : codeOf s.encoders.le_part p0 = 0) :
    encodeQuery s.encoders line act part = encodeQuery s.encoders line act p0 ∧
    predictDuration s line act part = predictDuration s line act p0 ∧
    checkAnomaly s line act part = checkAnomaly s line act p0 := by
  rcases codeOf?_isSome_of_mem hl with ⟨lc, hlc⟩
  rcases codeOf?_isSome_of_mem ha with ⟨ac, hac⟩
  have hq : encodeQuery s.encoders line act part
      = encodeQuery s.encoders line act p0 := by
    simp [encodeQuery, hlc, hac, hp, hp0, hc0]
  refine ⟨hq, ?_, ?_⟩
  · unfold predictDuration
    rw [hq]
  · unfold checkAnomaly
    rw [hq]

/-- C10, witness: on the one-record corpus the unseen part "Widget" behaves
exactly like "GearA", the in-vocabulary part with code 0. -/
theorem C10_witness :
    encodeQuery sess1.encoders "R1" "Setup" "Widget"
      = encodeQuery sess1.encoders "R1" "Setup" "GearA" ∧
    predictDuration sess1 "R1" "Setup" "Widget"
      = predictDuration sess1 "R1" "Setup" "GearA" ∧
    checkAnomaly sess1 "R1" "Setup" "Widget"
      = checkAnomaly sess1 "R1" "Setup" "GearA" :=
  C10_oov_conflates_code0 fitRegHead fitAnomConst corpus1 sess1 rfl
    "R1" "Setup" "Widget" "GearA" (by decide) (by decide) (by decide)
    (by decide) (by decide)
